import Mathlib

/-!
Shallow embedding of the orchestrated Saga implementation: the Saga
orchestrator together with the order (pedidos), stock (estoque),
payment (pagamentos) and delivery (entregas) participant services.

Modelling conventions:
* Go JSON dynamic values (map[string]interface produced by
  encoding/json) are modelled by `JVal` and association lists `JMap`
  interpreted as maps via first-binding lookup; a Go map assignment
  conses a fresh binding, so the newest binding is found first.
  JSON numbers are modelled uniformly as rationals, matching the fact
  that every payload crosses a JSON marshal boundary where Go ints
  become float64 on the far side.
* Database writes and the mocked random failures are effects whose
  outcome is an input of the model: a `dbOk`/`randFail` boolean
  selects the branch the Go code takes.  `time.Now`-derived generated
  identifiers are opaque string parameters, one per `generateID()`
  call site, and timestamp fields are not modelled (no claim concerns
  them).
* An orchestrator handler invocation is modelled as the list of
  effects it performs, in order: events appended to the saga event
  log and records published to Kafka.  `getCurrentState` reads the
  latest appended event, which models the SQL query ordering
  `saga_events` by `created_at` descending with limit 1.
* Kafka publications are modelled as `ProducerRecord`s carrying the
  topic, the optional partition key and the body; the Go code builds
  `sarama.ProducerMessage` values with only `Topic` and `Value` set,
  which the embedding renders as `key := none`.
-/

/-- JSON-like dynamic value as held in a Go map[string]interface. -/
inductive JVal where
  | str (v : String)
  | num (v : Rat)
  | jbool (v : Bool)
  | jnull
deriving DecidableEq

/-- JSON object: association list, first binding of a key wins. -/
abbrev JMap := List (String × JVal)

/-- Reading a key of a Go map (missing key gives the not-ok result). -/
def jLookup (m : JMap) (k : String) : Option JVal :=
  match m with
  | [] => none
  | (k2, v) :: rest => if k2 = k then some v else jLookup rest k

/-- Writing a key of a Go map: the fresh binding shadows older ones. -/
def jInsert (m : JMap) (k : String) (v : JVal) : JMap :=
  (k, v) :: m

/-- Reading a key of a possibly-nil Go map. -/
def optLookup (m : Option JMap) (k : String) : Option JVal :=
  match m with
  | none => none
  | some mm => jLookup mm k

/-- Models the participant loop that copies cmd.Payload into the fresh
reply data map when the payload is non-nil: every live binding of the
payload ends up in the destination map. -/
def copyPayloadInto (data : JMap) (payload : Option JMap) : JMap :=
  match payload with
  | some p => p ++ data
  | none => data

/-- Go int(float64) truncation toward zero, on the rational model of
JSON numbers. -/
def ratTrunc (q : Rat) : Int :=
  if q < 0 then -((-q).num / ((-q).den : Int)) else q.num / (q.den : Int)

/-- Helper shared by the participants: payload[key] as a string with a
default when absent or of the wrong dynamic type. -/
def getStringFromPayload (payload : Option JMap) (key dflt : String) : String :=
  match optLookup payload key with
  | some (JVal.str s) => s
  | _ => dflt

/-- Helper shared by the participants: payload[key] as an int (Go
asserts float64 and truncates). -/
def getIntFromPayload (payload : Option JMap) (key : String) (dflt : Int) : Int :=
  match optLookup payload key with
  | some (JVal.num q) => ratTrunc q
  | _ => dflt

/-- Helper shared by the participants: payload[key] as a float. -/
def getFloatFromPayload (payload : Option JMap) (key : String) (dflt : Rat) : Rat :=
  match optLookup payload key with
  | some (JVal.num q) => q
  | _ => dflt

/-- Saga state constant PENDING. -/
def StatePending : String := "PENDING"

/-- Saga state constant ORDER_VALIDATED. -/
def StateOrderValidated : String := "ORDER_VALIDATED"

/-- Saga state constant STOCK_RESERVED. -/
def StateStockReserved : String := "STOCK_RESERVED"

/-- Saga state constant PAYMENT_PROCESSED. -/
def StatePaymentProcessed : String := "PAYMENT_PROCESSED"

/-- Saga state constant DELIVERY_SCHEDULED. -/
def StateDeliveryScheduled : String := "DELIVERY_SCHEDULED"

/-- Saga state constant COMPLETED. -/
def StateCompleted : String := "COMPLETED"

/-- Saga state constant FAILED. -/
def StateFailed : String := "FAILED"

/-- Saga state constant COMPENSATING. -/
def StateCompensating : String := "COMPENSATING"

/-- Row of the saga_events table as written by saveEvent (timestamp
column not modelled). -/
structure SagaEvent where
  sagaID : String
  orderID : String
  state : String
  data : Option JMap
  error : String
deriving DecidableEq

/-- Command envelope sent from the orchestrator to a participant. -/
structure Command where
  commandID : String
  sagaID : String
  orderID : String
  commandType : String
  payload : Option JMap
deriving DecidableEq

/-- Reply envelope sent from a participant to the orchestrator. -/
structure Reply where
  replyID : String
  commandID : String
  sagaID : String
  success : Bool
  message : String
  data : Option JMap
deriving DecidableEq

/-- Body of a Kafka message produced by this system. -/
inductive MsgBody where
  | cmdBody (c : Command)
  | replyBody (r : Reply)
  | processedBody (sagaID : String) (orderID : Option JVal) (data : Option JMap)
deriving DecidableEq

/-- A produced Kafka record: topic, optional partition key, body. -/
structure ProducerRecord where
  topic : String
  key : Option String
  value : MsgBody
deriving DecidableEq

/-- Effect performed by one orchestrator handler invocation. -/
inductive OrchAction where
  | append (e : SagaEvent)
  | send (rec : ProducerRecord)
deriving DecidableEq

/-- Outcome of one orchestrator handler invocation: effects that took
place, in order, and the error the Go function returned, if any. -/
structure ExecResult where
  actions : List OrchAction
  err : Option String
deriving DecidableEq

/-- Outcome of the per-message body of ConsumerHandler.ConsumeClaim:
whether session.MarkMessage ran (the message was acknowledged), and
the orchestrator result. -/
structure HandleResult where
  acked : Bool
  result : ExecResult
deriving DecidableEq

/-- Orchestrator.sendCommand builds a sarama.ProducerMessage with only
Topic and Value set: no partition key. -/
def sendCommandRecord (topic : String) (cmd : Command) : ProducerRecord :=
  { topic := topic, key := none, value := MsgBody.cmdBody cmd }

/-- Orchestrator.getCurrentState: latest state of the saga from the
event log, an error when the saga has no events (the SQL query returns
no rows). -/
def getCurrentState (log : List SagaEvent) : Except String String :=
  match log.getLast? with
  | none => Except.error "sql: no rows in result set"
  | some e => Except.ok e.state

/-- Orchestrator.getOrderID: extract reply.Data order_id as a string,
empty when the map is nil, the key missing, or the value not a string. -/
def getOrderID (r : Reply) : String :=
  match r.data with
  | none => ""
  | some m =>
    match jLookup m "order_id" with
    | some (JVal.str s) => s
    | _ => ""

/-- Orchestrator.sendCompensation: a compensation command populates
only command id, saga id, command type (and the unmodelled timestamp);
order id stays the zero value and payload stays nil. -/
def sendCompensation (topic sagaID commandType cid : String) : OrchAction :=
  OrchAction.send (sendCommandRecord topic
    { commandID := cid, sagaID := sagaID, orderID := "",
      commandType := commandType, payload := none })

/-- Orchestrator.startCompensation: append a COMPENSATING event, emit
the compensation commands selected by the switch with fallthrough on
the current state, then append a FAILED event.  The whole trace is
produced by the single invocation: no compensation reply is awaited
before FAILED is appended.  c1, c2, c3 name the generateID values in
call order. -/
def startCompensation (dbOk : Bool) (sagaID currentState errMsg : String)
    (c1 c2 c3 : String) : ExecResult :=
  if dbOk then
    let comps : List OrchAction :=
      if currentState = StatePaymentProcessed then
        [sendCompensation "pagamentos-commands" sagaID "CANCEL_PAYMENT" c1,
         sendCompensation "estoque-commands" sagaID "RELEASE_STOCK" c2,
         sendCompensation "pedidos-commands" sagaID "CANCEL_ORDER" c3]
      else if currentState = StateStockReserved then
        [sendCompensation "estoque-commands" sagaID "RELEASE_STOCK" c1,
         sendCompensation "pedidos-commands" sagaID "CANCEL_ORDER" c2]
      else if currentState = StateOrderValidated then
        [sendCompensation "pedidos-commands" sagaID "CANCEL_ORDER" c1]
      else []
    { actions :=
        OrchAction.append
          { sagaID := sagaID, orderID := "", state := StateCompensating,
            data := none, error := errMsg } ::
        (comps ++
          [OrchAction.append
            { sagaID := sagaID, orderID := "", state := StateFailed,
              data := none, error := errMsg }]),
      err := none }
  else { actions := [], err := some "event log write error" }

/-- Orchestrator.processReply: look up the current state; on a failure
reply start compensation; on a success reply switch on the source
topic, emit the next forward command (or, for entregas-reply, the
terminal processed record) and then append the transition event with
the reply data as snapshot.  The current state is never consulted on
the success path.  cid names the generated id of the forward command;
c1 c2 c3 are the compensation ids. -/
def processReply (dbOk : Bool) (log : List SagaEvent) (topic : String)
    (r : Reply) (cid c1 c2 c3 : String) : ExecResult :=
  match getCurrentState log with
  | Except.error e => { actions := [], err := some e }
  | Except.ok currentState =>
    if !r.success then
      startCompensation dbOk r.sagaID currentState r.message c1 c2 c3
    else
      let orderID := getOrderID r
      let finishWith : List OrchAction → String → ExecResult := fun pre nextState =>
        if dbOk then
          { actions := pre ++
              [OrchAction.append
                { sagaID := r.sagaID, orderID := orderID, state := nextState,
                  data := r.data, error := "" }],
            err := none }
        else { actions := pre, err := some "event log write error" }
      if topic = "pedidos-reply" then
        finishWith
          [OrchAction.send (sendCommandRecord "estoque-commands"
            { commandID := cid, sagaID := r.sagaID, orderID := orderID,
              commandType := "RESERVE_STOCK", payload := r.data })]
          StateOrderValidated
      else if topic = "estoque-reply" then
        finishWith
          [OrchAction.send (sendCommandRecord "pagamentos-commands"
            { commandID := cid, sagaID := r.sagaID, orderID := orderID,
              commandType := "PROCESS_PAYMENT", payload := r.data })]
          StateStockReserved
      else if topic = "pagamentos-reply" then
        finishWith
          [OrchAction.send (sendCommandRecord "entregas-commands"
            { commandID := cid, sagaID := r.sagaID, orderID := orderID,
              commandType := "SCHEDULE_DELIVERY", payload := r.data })]
          StatePaymentProcessed
      else if topic = "entregas-reply" then
        finishWith
          [OrchAction.send
            { topic := "pedido-saga-pedido-processado", key := none,
              value := MsgBody.processedBody r.sagaID
                (match r.data with
                 | none => none
                 | some m => jLookup m "order_id") r.data }]
          StateCompleted
      else
        finishWith [] ""

/-- Orchestrator.startNewSaga on an already-parsed ingress payload:
ensure order_id is a string (generating one otherwise), append the
PENDING event and send the VALIDATE_ORDER command. -/
def startNewSaga (dbOk : Bool) (sagaID genOrderID cid : String)
    (orderData : JMap) : ExecResult :=
  let resolved : String × JMap :=
    match jLookup orderData "order_id" with
    | some (JVal.str s) => (s, orderData)
    | _ => (genOrderID, jInsert orderData "order_id" (JVal.str genOrderID))
  if dbOk then
    { actions :=
        [OrchAction.append
          { sagaID := sagaID, orderID := resolved.1, state := StatePending,
            data := some resolved.2, error := "" },
         OrchAction.send (sendCommandRecord "pedidos-commands"
          { commandID := cid, sagaID := sagaID, orderID := resolved.1,
            commandType := "VALIDATE_ORDER", payload := some resolved.2 })],
      err := none }
  else { actions := [], err := some "event log write error" }

/-- Reply-topic branch of the orchestrator ConsumerHandler.ConsumeClaim
body for one message: a message whose body does not unmarshal as a
Reply is logged and marked; otherwise processReply runs and the
message is marked regardless of its result (errors are only logged). -/
def consumeReplyMessage (dbOk : Bool) (log : List SagaEvent) (topic : String)
    (parsed : Option Reply) (cid c1 c2 c3 : String) : HandleResult :=
  match parsed with
  | none => { acked := true, result := { actions := [], err := none } }
  | some r => { acked := true, result := processReply dbOk log topic r cid c1 c2 c3 }

/-- Events appended by a list of orchestrator effects. -/
def appendedEvents (acts : List OrchAction) : List SagaEvent :=
  acts.filterMap fun a =>
    match a with
    | OrchAction.append e => some e
    | _ => none

/-- Extend an event log with the events a handler invocation appended. -/
def applyActions (log : List SagaEvent) (acts : List OrchAction) : List SagaEvent :=
  log ++ appendedEvents acts

/-- Commands carried by the records a list of effects published. -/
def sentCommands (acts : List OrchAction) : List Command :=
  acts.filterMap fun a =>
    match a with
    | OrchAction.send rec =>
      match rec.value with
      | MsgBody.cmdBody c => some c
      | _ => none
    | _ => none

/-- Number of appended events having a given state. -/
def countStateAppends (st : String) (acts : List OrchAction) : Nat :=
  (appendedEvents acts).countP fun e => e.state == st

/-- Number of published commands having a given command type. -/
def countCommandSends (ct : String) (acts : List OrchAction) : Nat :=
  (sentCommands acts).countP fun c => c.commandType == ct

/-- Row of the orders table owned by the order service. -/
structure OrderRow where
  id : String
  saga_id : String
  customer_id : String
  product_id : String
  quantity : Int
  total_amount : Rat
  status : String
deriving DecidableEq

/-- Row of the stock_reservations table owned by the stock service. -/
structure StockRow where
  id : String
  saga_id : String
  product_id : String
  quantity : Int
  status : String
deriving DecidableEq

/-- Row of the payments table owned by the payment service. -/
structure PaymentRow where
  id : String
  saga_id : String
  order_id : String
  amount : Rat
  status : String
  transaction_id : String
deriving DecidableEq

/-- Row of the deliveries table owned by the delivery service. -/
structure DeliveryRow where
  id : String
  saga_id : String
  order_id : String
  address : String
  scheduled_date : String
  status : String
  tracking_number : String
deriving DecidableEq

/-- OrderService.cancelOrder: UPDATE orders SET status = CANCELLED
WHERE saga_id matches. -/
def OrderService.cancelOrder (tbl : List OrderRow) (sagaID : String) : List OrderRow :=
  tbl.map fun row =>
    if row.saga_id = sagaID then { row with status := "CANCELLED" } else row

/-- StockService.releaseStock: UPDATE stock_reservations SET status =
RELEASED WHERE saga_id matches. -/
def StockService.releaseStock (tbl : List StockRow) (sagaID : String) : List StockRow :=
  tbl.map fun row =>
    if row.saga_id = sagaID then { row with status := "RELEASED" } else row

/-- PaymentService.cancelPayment: UPDATE payments SET status =
CANCELLED WHERE saga_id matches. -/
def PaymentService.cancelPayment (tbl : List PaymentRow) (sagaID : String) : List PaymentRow :=
  tbl.map fun row =>
    if row.saga_id = sagaID then { row with status := "CANCELLED" } else row

/-- DeliveryService.cancelDelivery: UPDATE deliveries SET status =
CANCELLED WHERE saga_id matches. -/
def DeliveryService.cancelDelivery (tbl : List DeliveryRow) (sagaID : String) : List DeliveryRow :=
  tbl.map fun row =>
    if row.saga_id = sagaID then { row with status := "CANCELLED" } else row

/-- OrderService.validateOrder: build the order row from the command
payload (with the mocked defaults) and insert it; nil when the insert
fails. -/
def OrderService.validateOrder (dbOk : Bool) (newID : String)
    (tbl : List OrderRow) (cmd : Command) : Option (OrderRow × List OrderRow) :=
  let order : OrderRow :=
    { id := newID, saga_id := cmd.sagaID,
      customer_id := getStringFromPayload cmd.payload "customer_id" "CUST-001",
      product_id := getStringFromPayload cmd.payload "product_id" "PROD-001",
      quantity := getIntFromPayload cmd.payload "quantity" 1,
      total_amount := getFloatFromPayload cmd.payload "total_amount" 100,
      status := "VALIDATED" }
  if dbOk then some (order, tbl ++ [order]) else none

/-- OrderService.processCommand.  The VALIDATE_ORDER reply data is
built from scratch (the order service has no copy-payload loop): it
holds exactly order_id (the freshly generated row id), customer_id,
product_id, quantity and total_amount.  rid and newID name the two
generateID values. -/
def OrderService.processCommand (dbOk : Bool) (rid newID : String)
    (tbl : List OrderRow) (cmd : Command) : Reply × List OrderRow :=
  let base : Reply :=
    { replyID := rid, commandID := cmd.commandID, sagaID := cmd.sagaID,
      success := false, message := "", data := some [] }
  if cmd.commandType = "VALIDATE_ORDER" then
    match OrderService.validateOrder dbOk newID tbl cmd with
    | some (order, tbl2) =>
      let d : JMap :=
        jInsert (jInsert (jInsert (jInsert (jInsert []
          "order_id" (JVal.str order.id))
          "customer_id" (JVal.str order.customer_id))
          "product_id" (JVal.str order.product_id))
          "quantity" (JVal.num (order.quantity : Rat)))
          "total_amount" (JVal.num order.total_amount)
      ({ base with success := true, message := "Pedido validado com sucesso", data := some d }, tbl2)
    | none =>
      ({ base with success := false, message := "Falha ao validar pedido" }, tbl)
  else if cmd.commandType = "CANCEL_ORDER" then
    if dbOk then
      ({ base with success := true, message := "Pedido cancelado com sucesso" },
        OrderService.cancelOrder tbl cmd.sagaID)
    else
      ({ base with success := false, message := "Erro ao cancelar pedido: db error" }, tbl)
  else
    ({ base with success := false, message := "Comando desconhecido: " ++ cmd.commandType }, tbl)

/-- StockService.reserveStock: mocked random failure, then build and
insert the reservation row; nil on either failure. -/
def StockService.reserveStock (dbOk randFail : Bool) (newID : String)
    (tbl : List StockRow) (cmd : Command) : Option (StockRow × List StockRow) :=
  if randFail then none
  else
    let res : StockRow :=
      { id := newID, saga_id := cmd.sagaID,
        product_id := getStringFromPayload cmd.payload "product_id" "PROD-001",
        quantity := getIntFromPayload cmd.payload "quantity" 1,
        status := "RESERVED" }
    if dbOk then some (res, tbl ++ [res]) else none

/-- StockService.processCommand: the reply data starts as a copy of
the command payload and gains reservation_id on success. -/
def StockService.processCommand (dbOk randFail : Bool) (rid newID : String)
    (tbl : List StockRow) (cmd : Command) : Reply × List StockRow :=
  let base : Reply :=
    { replyID := rid, commandID := cmd.commandID, sagaID := cmd.sagaID,
      success := false, message := "",
      data := some (copyPayloadInto [] cmd.payload) }
  if cmd.commandType = "RESERVE_STOCK" then
    match StockService.reserveStock dbOk randFail newID tbl cmd with
    | some (res, tbl2) =>
      let d : JMap :=
        jInsert (copyPayloadInto [] cmd.payload) "reservation_id" (JVal.str res.id)
      ({ base with success := true, message := "Estoque reservado com sucesso", data := some d }, tbl2)
    | none =>
      ({ base with success := false, message := "Estoque insuficiente" }, tbl)
  else if cmd.commandType = "RELEASE_STOCK" then
    if dbOk then
      ({ base with success := true, message := "Estoque liberado com sucesso" },
        StockService.releaseStock tbl cmd.sagaID)
    else
      ({ base with success := false, message := "Erro ao liberar estoque: db error" }, tbl)
  else
    ({ base with success := false, message := "Comando desconhecido: " ++ cmd.commandType }, tbl)

/-- PaymentService.processPayment: mocked gateway failure, then build
and insert the payment row; nil on either failure. -/
def PaymentService.processPayment (dbOk randFail : Bool) (newID txn : String)
    (tbl : List PaymentRow) (cmd : Command) : Option (PaymentRow × List PaymentRow) :=
  if randFail then none
  else
    let payment : PaymentRow :=
      { id := newID, saga_id := cmd.sagaID,
        order_id := getStringFromPayload cmd.payload "order_id" "",
        amount := getFloatFromPayload cmd.payload "total_amount" 0,
        status := "APPROVED", transaction_id := txn }
    if dbOk then some (payment, tbl ++ [payment]) else none

/-- PaymentService.processCommand: the reply data starts as a copy of
the command payload and gains payment_id and transaction_id on
success. -/
def PaymentService.processCommand (dbOk randFail : Bool) (rid newID txn : String)
    (tbl : List PaymentRow) (cmd : Command) : Reply × List PaymentRow :=
  let base : Reply :=
    { replyID := rid, commandID := cmd.commandID, sagaID := cmd.sagaID,
      success := false, message := "",
      data := some (copyPayloadInto [] cmd.payload) }
  if cmd.commandType = "PROCESS_PAYMENT" then
    match PaymentService.processPayment dbOk randFail newID txn tbl cmd with
    | some (payment, tbl2) =>
      let d : JMap :=
        jInsert (jInsert (copyPayloadInto [] cmd.payload)
          "payment_id" (JVal.str payment.id))
          "transaction_id" (JVal.str payment.transaction_id)
      ({ base with success := true, message := "Pagamento processado com sucesso", data := some d }, tbl2)
    | none =>
      ({ base with success := false, message := "Falha no processamento do pagamento" }, tbl)
  else if cmd.commandType = "CANCEL_PAYMENT" then
    if dbOk then
      ({ base with success := true, message := "Pagamento cancelado com sucesso" },
        PaymentService.cancelPayment tbl cmd.sagaID)
    else
      ({ base with success := false, message := "Erro ao cancelar pagamento: db error" }, tbl)
  else
    ({ base with success := false, message := "Comando desconhecido: " ++ cmd.commandType }, tbl)

/-- DeliveryService.scheduleDelivery: build and insert the delivery
row (this step has no mocked random failure); nil when the insert
fails. -/
def DeliveryService.scheduleDelivery (dbOk : Bool) (newID trk sched : String)
    (tbl : List DeliveryRow) (cmd : Command) : Option (DeliveryRow × List DeliveryRow) :=
  let delivery : DeliveryRow :=
    { id := newID, saga_id := cmd.sagaID,
      order_id := getStringFromPayload cmd.payload "order_id" "",
      address := getStringFromPayload cmd.payload "address" "Rua Exemplo, 123",
      scheduled_date := sched, status := "SCHEDULED", tracking_number := trk }
  if dbOk then some (delivery, tbl ++ [delivery]) else none

/-- DeliveryService.processCommand: the reply data starts as a copy of
the command payload and gains delivery_id, tracking_number and
scheduled_date on success. -/
def DeliveryService.processCommand (dbOk : Bool) (rid newID trk sched : String)
    (tbl : List DeliveryRow) (cmd : Command) : Reply × List DeliveryRow :=
  let base : Reply :=
    { replyID := rid, commandID := cmd.commandID, sagaID := cmd.sagaID,
      success := false, message := "",
      data := some (copyPayloadInto [] cmd.payload) }
  if cmd.commandType = "SCHEDULE_DELIVERY" then
    match DeliveryService.scheduleDelivery dbOk newID trk sched tbl cmd with
    | some (delivery, tbl2) =>
      let d : JMap :=
        jInsert (jInsert (jInsert (copyPayloadInto [] cmd.payload)
          "delivery_id" (JVal.str delivery.id))
          "tracking_number" (JVal.str delivery.tracking_number))
          "scheduled_date" (JVal.str delivery.scheduled_date)
      ({ base with success := true, message := "Entrega agendada com sucesso", data := some d }, tbl2)
    | none =>
      ({ base with success := false, message := "Falha ao agendar entrega" }, tbl)
  else if cmd.commandType = "CANCEL_DELIVERY" then
    if dbOk then
      ({ base with success := true, message := "Entrega cancelada com sucesso" },
        DeliveryService.cancelDelivery tbl cmd.sagaID)
    else
      ({ base with success := false, message := "Erro ao cancelar entrega: db error" }, tbl)
  else
    ({ base with success := false, message := "Comando desconhecido: " ++ cmd.commandType }, tbl)

/-- OrderService.sendReply: sarama.ProducerMessage for pedidos-reply
with only Topic and Value set. -/
def OrderService.sendReplyRecord (r : Reply) : ProducerRecord :=
  { topic := "pedidos-reply", key := none, value := MsgBody.replyBody r }

/-- StockService.sendReply record on estoque-reply with no key. -/
def StockService.sendReplyRecord (r : Reply) : ProducerRecord :=
  { topic := "estoque-reply", key := none, value := MsgBody.replyBody r }

/-- PaymentService.sendReply record on pagamentos-reply with no key. -/
def PaymentService.sendReplyRecord (r : Reply) : ProducerRecord :=
  { topic := "pagamentos-reply", key := none, value := MsgBody.replyBody r }

/-- DeliveryService.sendReply record on entregas-reply with no key. -/
def DeliveryService.sendReplyRecord (r : Reply) : ProducerRecord :=
  { topic := "entregas-reply", key := none, value := MsgBody.replyBody r }

/-- Placeholder command used only as the default of headD when a
command list is consumed positionally in concrete runs. -/
def defaultCommand : Command :=
  { commandID := "", sagaID := "", orderID := "", commandType := "", payload := none }

/-- Concrete ingress payload of the happy-path scenario, carrying all
six context keys. -/
def sampleIngress : JMap :=
  [("order_id", JVal.str "ORD-1"), ("customer_id", JVal.str "CUST-1"),
   ("product_id", JVal.str "P-1"), ("quantity", JVal.num 2),
   ("total_amount", JVal.num 200), ("address", JVal.str "A1")]

/-- End-to-end happy-path run: ingress through startNewSaga, then each
participant processes the command the orchestrator just published and
the orchestrator processes the success reply, until the terminal
event.  All generated identifiers are fixed concrete strings; every
database write succeeds and no mocked random failure fires. -/
def happyPathLog (ingress : JMap) : List SagaEvent :=
  let r0 := startNewSaga true "SAGA-1" "GEN-ORD" "CMD-1" ingress
  let log0 := applyActions [] r0.actions
  let cmd1 := (sentCommands r0.actions).headD defaultCommand
  let rep1 := (OrderService.processCommand true "RID-1" "ORD-NEW" [] cmd1).1
  let r1 := processReply true log0 "pedidos-reply" rep1 "CMD-2" "K1" "K2" "K3"
  let log1 := applyActions log0 r1.actions
  let cmd2 := (sentCommands r1.actions).headD defaultCommand
  let rep2 := (StockService.processCommand true false "RID-2" "RES-1" [] cmd2).1
  let r2 := processReply true log1 "estoque-reply" rep2 "CMD-3" "K1" "K2" "K3"
  let log2 := applyActions log1 r2.actions
  let cmd3 := (sentCommands r2.actions).headD defaultCommand
  let rep3 := (PaymentService.processCommand true false "RID-3" "PAY-1" "TXN-1" [] cmd3).1
  let r3 := processReply true log2 "pagamentos-reply" rep3 "CMD-4" "K1" "K2" "K3"
  let log3 := applyActions log2 r3.actions
  let cmd4 := (sentCommands r3.actions).headD defaultCommand
  let rep4 := (DeliveryService.processCommand true "RID-4" "DEL-1" "TRK-1" "2026-01-01T00:00:00Z" [] cmd4).1
  let r4 := processReply true log3 "entregas-reply" rep4 "CMD-5" "K1" "K2" "K3"
  applyActions log3 r4.actions

/-- Data snapshot of the last event of the concrete happy-path run. -/
def happyFinalData : Option JMap :=
  match (happyPathLog sampleIngress).getLast? with
  | some e => e.data
  | none => none

/-- Event log of a saga whose current state is PAYMENT_PROCESSED. -/
def c1PayLog : List SagaEvent :=
  [{ sagaID := "S1", orderID := "ORD-1", state := StatePaymentProcessed,
     data := none, error := "" }]

/-- Failure reply used in concrete compensation runs. -/
def c1FailReply : Reply :=
  { replyID := "R1", commandID := "C1", sagaID := "S1", success := false,
    message := "Falha no processamento do pagamento", data := none }

/-- Event log of a saga that already recorded ORDER_VALIDATED. -/
def c2Log : List SagaEvent :=
  [{ sagaID := "S1", orderID := "ORD-1", state := StatePending, data := none, error := "" },
   { sagaID := "S1", orderID := "ORD-1", state := StateOrderValidated, data := none, error := "" }]

/-- Successful stock reply, delivered twice in the duplicate scenario. -/
def c2StockReply : Reply :=
  { replyID := "R2", commandID := "C2", sagaID := "S1", success := true,
    message := "Estoque reservado com sucesso",
    data := some [("order_id", JVal.str "ORD-1"), ("reservation_id", JVal.str "RES-1")] }

/-- First delivery of the stock reply. -/
def c2FirstDelivery : ExecResult :=
  processReply true c2Log "estoque-reply" c2StockReply "C3" "K1" "K2" "K3"

/-- Second (duplicate) delivery of the same stock reply, after the
events of the first delivery reached the log. -/
def c2SecondDelivery : ExecResult :=
  processReply true (applyActions c2Log c2FirstDelivery.actions) "estoque-reply"
    c2StockReply "C4" "K1" "K2" "K3"

/-- Event log whose latest state is already PAYMENT_PROCESSED, i.e.
past the state a stock reply would establish. -/
def c2PastLog : List SagaEvent :=
  [{ sagaID := "S1", orderID := "ORD-1", state := StatePaymentProcessed,
     data := none, error := "" }]

/-- Successful stock reply arriving late, when the saga is past
STOCK_RESERVED. -/
def c2LateStockReply : Reply :=
  { replyID := "R3", commandID := "C3", sagaID := "S1", success := true,
    message := "Estoque reservado com sucesso",
    data := some [("order_id", JVal.str "ORD-1")] }

/-- Event log of a saga that already reached the terminal COMPLETED
state. -/
def c3Log : List SagaEvent :=
  [{ sagaID := "S1", orderID := "ORD-1", state := StateCompleted,
     data := none, error := "" }]

/-- Failure reply delivered after the saga completed. -/
def c3FailReply : Reply :=
  { replyID := "R9", commandID := "C9", sagaID := "S1", success := false,
    message := "late failure", data := none }

/-- Processing of a failure reply on a COMPLETED saga. -/
def c3Run : ExecResult :=
  processReply true c3Log "estoque-reply" c3FailReply "C0" "K1" "K2" "K3"

/-- Event log of a saga that already reached ORDER_VALIDATED, used by
the write-error scenario. -/
def c5Log : List SagaEvent :=
  [{ sagaID := "S1", orderID := "ORD-1", state := StateOrderValidated, data := none, error := "" }]

/-- Success reply whose processing hits the event-log write failure. -/
def c5Reply : Reply :=
  { replyID := "R5", commandID := "C5", sagaID := "S1", success := true,
    message := "Estoque reservado com sucesso", data := none }

/-- Handling of c5Reply when every event-log write fails. -/
def c5Run : HandleResult :=
  consumeReplyMessage false c5Log "estoque-reply" (some c5Reply) "C0" "K1" "K2" "K3"

/-- Concrete command for the partition-key counterexample. -/
def c6Command : Command :=
  { commandID := "C6", sagaID := "S1", orderID := "ORD-1",
    commandType := "RESERVE_STOCK", payload := none }

/-- Concrete participant reply for the partition-key counterexample. -/
def c6Reply : Reply :=
  { replyID := "R6", commandID := "C6", sagaID := "S1", success := true,
    message := "Pedido validado com sucesso", data := none }

/-- Updating the rows a predicate selects, with an update that
preserves the predicate and is idempotent on a single row, is
idempotent on the whole table. -/
theorem update_where_idem {α : Type} (p : α → Prop) [DecidablePred p] (u : α → α)
    (hp : ∀ a, p a → p (u a)) (hu : ∀ a, u (u a) = u a) (l : List α) :
    (l.map fun a => if p a then u a else a).map (fun a => if p a then u a else a) =
      l.map fun a => if p a then u a else a := by
  induction l with
  | nil => rfl
  | cons a t ih =>
    by_cases h : p a
    · simp [List.map_cons, ih, h, hp a h, hu a]
    · simp [List.map_cons, ih, h]

/-- Claim C1: on a failure reply, from current state PAYMENT_PROCESSED
the orchestrator appends a COMPENSATING event, publishes
CANCEL_PAYMENT to pagamentos-commands, then RELEASE_STOCK to
estoque-commands, then CANCEL_ORDER to pedidos-commands, and then
appends a FAILED event recording the reply message; from
STOCK_RESERVED it publishes RELEASE_STOCK then CANCEL_ORDER; from
ORDER_VALIDATED only CANCEL_ORDER.  The FAILED event belongs to the
same invocation trace, so no compensation reply is awaited. -/
theorem c1_failure_reply_triggers_reverse_compensation (log : List SagaEvent)
    (topic : String) (r : Reply) (c0 c1 c2 c3 : String) (hfail : r.success = false) :
    (getCurrentState log = Except.ok StatePaymentProcessed →
      processReply true log topic r c0 c1 c2 c3 =
        { actions :=
            [OrchAction.append
               { sagaID := r.sagaID, orderID := "", state := StateCompensating,
                 data := none, error := r.message },
             sendCompensation "pagamentos-commands" r.sagaID "CANCEL_PAYMENT" c1,
             sendCompensation "estoque-commands" r.sagaID "RELEASE_STOCK" c2,
             sendCompensation "pedidos-commands" r.sagaID "CANCEL_ORDER" c3,
             OrchAction.append
               { sagaID := r.sagaID, orderID := "", state := StateFailed,
                 data := none, error := r.message }],
          err := none }) ∧
    (getCurrentState log = Except.ok StateStockReserved →
      processReply true log topic r c0 c1 c2 c3 =
        { actions :=
            [OrchAction.append
               { sagaID := r.sagaID, orderID := "", state := StateCompensating,
                 data := none, error := r.message },
             sendCompensation "estoque-commands" r.sagaID "RELEASE_STOCK" c1,
             sendCompensation "pedidos-commands" r.sagaID "CANCEL_ORDER" c2,
             OrchAction.append
               { sagaID := r.sagaID, orderID := "", state := StateFailed,
                 data := none, error := r.message }],
          err := none }) ∧
    (getCurrentState log = Except.ok StateOrderValidated →
      processReply true log topic r c0 c1 c2 c3 =
        { actions :=
            [OrchAction.append
               { sagaID := r.sagaID, orderID := "", state := StateCompensating,
                 data := none, error := r.message },
             sendCompensation "pedidos-commands" r.sagaID "CANCEL_ORDER" c1,
             OrchAction.append
               { sagaID := r.sagaID, orderID := "", state := StateFailed,
                 data := none, error := r.message }],
          err := none }) := by
  refine ⟨fun h => ?_, fun h => ?_, fun h => ?_⟩ <;>
    simp [processReply, h, hfail, startCompensation, StatePaymentProcessed,
      StateStockReserved, StateOrderValidated, StateCompensating, StateFailed]

/-- Witness for C1 at a concrete saga in state PAYMENT_PROCESSED. -/
theorem c1_failure_reply_triggers_reverse_compensation_witness :
    processReply true c1PayLog "pagamentos-reply" c1FailReply "C0" "K1" "K2" "K3" =
      { actions :=
          [OrchAction.append
             { sagaID := "S1", orderID := "", state := StateCompensating,
               data := none, error := "Falha no processamento do pagamento" },
           sendCompensation "pagamentos-commands" "S1" "CANCEL_PAYMENT" "K1",
           sendCompensation "estoque-commands" "S1" "RELEASE_STOCK" "K2",
           sendCompensation "pedidos-commands" "S1" "CANCEL_ORDER" "K3",
           OrchAction.append
             { sagaID := "S1", orderID := "", state := StateFailed,
               data := none, error := "Falha no processamento do pagamento" }],
        err := none } :=
  (c1_failure_reply_triggers_reverse_compensation c1PayLog "pagamentos-reply"
    c1FailReply "C0" "K1" "K2" "K3" rfl).1 rfl

/-- Claim C2 counterexample: delivering the same successful stock
reply twice on an otherwise successful run appends TWO STOCK_RESERVED
events and publishes TWO PROCESS_PAYMENT commands; the duplicate is
re-processed rather than discarded, and without error. -/
theorem c2_duplicate_stock_reply_counterexample :
    countStateAppends StateStockReserved (c2FirstDelivery.actions ++ c2SecondDelivery.actions) = 2 ∧
    countCommandSends "PROCESS_PAYMENT" (c2FirstDelivery.actions ++ c2SecondDelivery.actions) = 2 ∧
    c2SecondDelivery.actions ≠ [] ∧ c2SecondDelivery.err = none := by
  decide

/-- Claim C2 (amended): a success reply is never discarded: processReply
ignores the current state on the success path and re-applies the
transition determined by the source topic, so a stock reply arriving
when the saga is at or past STOCK_RESERVED still publishes a
PROCESS_PAYMENT command and appends another STOCK_RESERVED event. -/
theorem c2_duplicate_reply_is_reprocessed (log : List SagaEvent) (s : String)
    (r : Reply) (c0 c1 c2 c3 : String) (h : getCurrentState log = Except.ok s)
    (hs : r.success = true) :
    processReply true log "estoque-reply" r c0 c1 c2 c3 =
      { actions :=
          [OrchAction.send (sendCommandRecord "pagamentos-commands"
             { commandID := c0, sagaID := r.sagaID, orderID := getOrderID r,
               commandType := "PROCESS_PAYMENT", payload := r.data }),
           OrchAction.append
             { sagaID := r.sagaID, orderID := getOrderID r,
               state := StateStockReserved, data := r.data, error := "" }],
        err := none } := by
  simp [processReply, h, hs, StateStockReserved]

/-- Witness for the amended C2 with a saga already past STOCK_RESERVED. -/
theorem c2_duplicate_reply_is_reprocessed_witness :
    processReply true c2PastLog "estoque-reply" c2LateStockReply "C0" "K1" "K2" "K3" =
      { actions :=
          [OrchAction.send (sendCommandRecord "pagamentos-commands"
             { commandID := "C0", sagaID := "S1", orderID := "ORD-1",
               commandType := "PROCESS_PAYMENT",
               payload := some [("order_id", JVal.str "ORD-1")] }),
           OrchAction.append
             { sagaID := "S1", orderID := "ORD-1", state := StateStockReserved,
               data := some [("order_id", JVal.str "ORD-1")], error := "" }],
        err := none } :=
  c2_duplicate_reply_is_reprocessed c2PastLog StatePaymentProcessed c2LateStockReply
    "C0" "K1" "K2" "K3" rfl rfl

/-- Claim C3 counterexample: after a saga recorded the terminal
COMPLETED state, processing a late failure reply still appends a
COMPENSATING event and a FAILED event to its log. -/
theorem c3_terminal_state_counterexample :
    c3Run.actions ≠ [] ∧
    countStateAppends StateCompensating c3Run.actions = 1 ∧
    countStateAppends StateFailed c3Run.actions = 1 ∧
    c3Run.err = none := by
  decide

/-- Claim C3 (amended): processReply has no terminal-state guard: when
the latest event is COMPLETED or FAILED, a failure reply still appends
a COMPENSATING and a FAILED event (these states match no compensation
branch, so no compensation command accompanies them). -/
theorem c3_replies_after_terminal_still_append (log : List SagaEvent)
    (topic : String) (r : Reply) (c0 c1 c2 c3 : String) (hfail : r.success = false) :
    (getCurrentState log = Except.ok StateCompleted →
      processReply true log topic r c0 c1 c2 c3 =
        { actions :=
            [OrchAction.append
               { sagaID := r.sagaID, orderID := "", state := StateCompensating,
                 data := none, error := r.message },
             OrchAction.append
               { sagaID := r.sagaID, orderID := "", state := StateFailed,
                 data := none, error := r.message }],
          err := none }) ∧
    (getCurrentState log = Except.ok StateFailed →
      processReply true log topic r c0 c1 c2 c3 =
        { actions :=
            [OrchAction.append
               { sagaID := r.sagaID, orderID := "", state := StateCompensating,
                 data := none, error := r.message },
             OrchAction.append
               { sagaID := r.sagaID, orderID := "", state := StateFailed,
                 data := none, error := r.message }],
          err := none }) := by
  refine ⟨fun h => ?_, fun h => ?_⟩ <;>
    simp [processReply, h, hfail, startCompensation, StatePaymentProcessed,
      StateStockReserved, StateOrderValidated, StateCompleted, StateFailed,
      StateCompensating]

/-- Witness for the amended C3 on a COMPLETED saga. -/
theorem c3_replies_after_terminal_still_append_witness :
    processReply true c3Log "estoque-reply" c3FailReply "C0" "K1" "K2" "K3" =
      { actions :=
          [OrchAction.append
             { sagaID := "S1", orderID := "", state := StateCompensating,
               data := none, error := "late failure" },
           OrchAction.append
             { sagaID := "S1", orderID := "", state := StateFailed,
               data := none, error := "late failure" }],
        err := none } :=
  (c3_replies_after_terminal_still_append c3Log "estoque-reply" c3FailReply
    "C0" "K1" "K2" "K3" rfl).1 rfl

/-- Claim C4: on the all-success run from the six-key ingress, the
terminal COMPLETED event is reached but its data snapshot has NO
address key: the order service rebuilds the reply data from scratch,
keeping only order_id (regenerated), customer_id, product_id,
quantity and total_amount, so address never survives the first hop. -/
theorem c4_address_not_preserved_on_happy_path :
    (happyPathLog sampleIngress).map SagaEvent.state =
      [StatePending, StateOrderValidated, StateStockReserved,
       StatePaymentProcessed, StateCompleted] ∧
    optLookup happyFinalData "customer_id" = some (JVal.str "CUST-1") ∧
    optLookup happyFinalData "product_id" = some (JVal.str "P-1") ∧
    optLookup happyFinalData "quantity" = some (JVal.num 2) ∧
    optLookup happyFinalData "total_amount" = some (JVal.num 200) ∧
    optLookup happyFinalData "order_id" = some (JVal.str "ORD-NEW") ∧
    optLookup happyFinalData "address" = none := by
  decide

/-- Claim C5 counterexample: a reply whose processing fails with an
event-log write error IS acknowledged (ConsumeClaim marks the message
unconditionally, only logging the error), contradicting the claim that
it is not marked as consumed. -/
theorem c5_write_error_reply_still_acked :
    c5Run.result.err = some "event log write error" ∧ c5Run.acked = true := by
  decide

/-- Claim C5 (amended): the orchestrator acknowledges every reply-topic
message whatever the processing outcome; an event-log write error is
only logged, so redelivery never happens. -/
theorem c5_reply_always_acknowledged (dbOk : Bool) (log : List SagaEvent)
    (topic : String) (parsed : Option Reply) (c0 c1 c2 c3 : String) :
    (consumeReplyMessage dbOk log topic parsed c0 c1 c2 c3).acked = true := by
  cases parsed <;> rfl

/-- Claim C6 counterexample: neither the command record built by
Orchestrator.sendCommand nor the reply record built by
OrderService.sendReply carries the saga id as partition key; both are
published with no key at all. -/
theorem c6_partition_key_counterexample :
    (sendCommandRecord "estoque-commands" c6Command).key ≠ some c6Command.sagaID ∧
    (OrderService.sendReplyRecord c6Reply).key ≠ some c6Reply.sagaID := by
  decide

/-- Claim C6 (amended): every record published on the saga-scoped
topics is built with only topic and value; the partition key is unset
and the saga id travels solely inside the JSON body. -/
theorem c6_published_records_have_no_key (topic : String) (cmd : Command)
    (r1 r2 r3 r4 : Reply) :
    (sendCommandRecord topic cmd).key = none ∧
    (OrderService.sendReplyRecord r1).key = none ∧
    (StockService.sendReplyRecord r2).key = none ∧
    (PaymentService.sendReplyRecord r3).key = none ∧
    (DeliveryService.sendReplyRecord r4).key = none :=
  ⟨rfl, rfl, rfl, rfl, rfl⟩

/-- Claim C7: a reply carrying a saga id with no events in the log
makes getCurrentState fail with the no-rows error, so processReply
appends no event and publishes nothing, and ConsumeClaim still marks
the message (logging the error), i.e. the reply is acknowledged and
dropped. -/
theorem c7_unknown_saga_reply_acked_and_dropped (dbOk : Bool) (topic : String)
    (r : Reply) (c0 c1 c2 c3 : String) :
    consumeReplyMessage dbOk [] topic (some r) c0 c1 c2 c3 =
      { acked := true,
        result := { actions := [], err := some "sql: no rows in result set" } } :=
  rfl

/-- Claim C8: a message on a reply topic whose body does not unmarshal
as a Reply is acknowledged and discarded with a logged warning; no
event is appended and no command is published. -/
theorem c8_malformed_reply_acked_and_dropped (dbOk : Bool) (log : List SagaEvent)
    (topic : String) (c0 c1 c2 c3 : String) :
    consumeReplyMessage dbOk log topic none c0 c1 c2 c3 =
      { acked := true, result := { actions := [], err := none } } :=
  rfl

/-- Claim C9: each compensation UPDATE (cancel order, release stock,
cancel payment) is idempotent on the participant table - a second
application leaves every row as the first left it - and the
corresponding processCommand branches reply success. -/
theorem c9_compensations_idempotent (t1 : List OrderRow) (t2 : List StockRow)
    (t3 : List PaymentRow) (s rid nid cid oid txn : String) (pl : Option JMap) :
    OrderService.cancelOrder (OrderService.cancelOrder t1 s) s = OrderService.cancelOrder t1 s ∧
    StockService.releaseStock (StockService.releaseStock t2 s) s = StockService.releaseStock t2 s ∧
    PaymentService.cancelPayment (PaymentService.cancelPayment t3 s) s = PaymentService.cancelPayment t3 s ∧
    (OrderService.processCommand true rid nid t1
      { commandID := cid, sagaID := s, orderID := oid,
        commandType := "CANCEL_ORDER", payload := pl }).1.success = true ∧
    (StockService.processCommand true false rid nid t2
      { commandID := cid, sagaID := s, orderID := oid,
        commandType := "RELEASE_STOCK", payload := pl }).1.success = true ∧
    (PaymentService.processCommand true false rid nid txn t3
      { commandID := cid, sagaID := s, orderID := oid,
        commandType := "CANCEL_PAYMENT", payload := pl }).1.success = true := by
  refine ⟨?_, ?_, ?_, rfl, rfl, rfl⟩
  · exact update_where_idem (fun row => row.saga_id = s)
      (fun row => { row with status := "CANCELLED" }) (fun a h => h) (fun a => rfl) t1
  · exact update_where_idem (fun row => row.saga_id = s)
      (fun row => { row with status := "RELEASED" }) (fun a h => h) (fun a => rfl) t2
  · exact update_where_idem (fun row => row.saga_id = s)
      (fun row => { row with status := "CANCELLED" }) (fun a h => h) (fun a => rfl) t3

/-- Claim C10: a compensation command populates only command id, saga
id and command type (plus the unmodelled timestamp): its order id is
the empty string and its payload is nil; and whatever the current
state, the COMPENSATING and FAILED events appended by
startCompensation carry an empty order id, no data snapshot and the
error string. -/
theorem c10_compensation_minimal_fields (topic sagaID ct cid s errMsg c1 c2 c3 : String) :
    sendCompensation topic sagaID ct cid =
      OrchAction.send
        { topic := topic, key := none,
          value := MsgBody.cmdBody
            { commandID := cid, sagaID := sagaID, orderID := "",
              commandType := ct, payload := none } } ∧
    appendedEvents (startCompensation true sagaID s errMsg c1 c2 c3).actions =
      [{ sagaID := sagaID, orderID := "", state := StateCompensating,
         data := none, error := errMsg },
       { sagaID := sagaID, orderID := "", state := StateFailed,
         data := none, error := errMsg }] := by
  constructor
  · rfl
  · simp only [startCompensation]
    split_ifs <;> rfl
